import Mathlib

/-!
Verification of the LeadManager Lightning component
(`force-app/main/default/lwc/leadManager/leadManager.js`).

Strings are modelled as lists of characters so that the JavaScript
operations `toLowerCase` and `includes` become `List.map Char.toLower`
and list-infix containment.  A JavaScript field that may be `undefined`
is modelled as an `Option`; the empty string is a distinct value.
A JavaScript expression that can throw (reading `.Name` on an
`undefined` owner) is modelled by returning `none`.
-/

abbrev Str := List Char

/-- JavaScript `s.toLowerCase()` on the character-list model. -/
def toLowerStr (s : Str) : Str := s.map Char.toLower

/-! ## Data model

`LeadRecord` is a raw record as delivered by the Apex wire adapter
`getLeads`; `Owner` is its nested owner reference.  `ViewLead` is the
enriched row built by `processLeadData`: the raw fields (the JS spread
`...lead`) plus the derived `OwnerName` and `statusClass`. -/

structure Owner where
  Name : Option Str
deriving DecidableEq

structure LeadRecord where
  Id : Str
  Name : Option Str
  Company : Option Str
  Status : Option Str
  LeadSource : Option Str
  Owner : Option Owner
deriving DecidableEq

structure ViewLead where
  Id : Str
  Name : Option Str
  Company : Option Str
  Status : Option Str
  LeadSource : Option Str
  Owner : Option Owner
  OwnerName : Option Str
  statusClass : Str
deriving DecidableEq

/-- The `if / else if` chain of `processLeadData` (leadManager.js 98-105):
a case-sensitive exact match on `lead.Status`. -/
def statusClassOf (st : Option Str) : Str :=
  if st = some ("Working - Contacted".toList) then "slds-text-color_success".toList
  else if st = some ("Closed - Not Converted".toList) then "slds-text-color_error".toList
  else if st = some ("Open - Not Contacted".toList) then "slds-text-color_weak".toList
  else []

/-- One iteration of the `leads.map` callback in `processLeadData`
(leadManager.js 96-112).  The JS reads `lead.Owner.Name`: when
`lead.Owner` is `undefined` this throws a TypeError, modelled as `none`;
when the owner exists but has no `Name`, `OwnerName` is `undefined`
(`some` view with `OwnerName = none`), not the empty string. -/
def processLead (lead : LeadRecord) : Option ViewLead :=
  match lead.Owner with
  | none => none
  | some o =>
      some { Id := lead.Id
             Name := lead.Name
             Company := lead.Company
             Status := lead.Status
             LeadSource := lead.LeadSource
             Owner := lead.Owner
             OwnerName := o.Name
             statusClass := statusClassOf lead.Status }

/-- Model of `this.data = leads.map (...)` in `processLeadData`: a thrown
TypeError aborts the whole map, so the list result is `none` as soon as
one record has no owner reference. -/
def processLeads (leads : List LeadRecord) : Option (List ViewLead) :=
  leads.mapM processLead

/-! ## Filtering (`applyFilter`, leadManager.js 158-177)

`handleSearch` stores `event.target.value.toLowerCase()` into
`this.searchTerm`, so inside `applyFilter` the term is already
lowercase.  A field participates in the match only when it is truthy:
`undefined` and the empty string never match. -/

/-- Model of `field && field.toLowerCase().includes(this.searchTerm)`. -/
def fieldMatches (f : Option Str) (term : Str) : Bool :=
  match f with
  | none => false
  | some s => !s.isEmpty && decide (term <:+: toLowerStr s)

/-- The `searchableFields.some (...)` disjunction over the five fields
of a row (leadManager.js 164-175). -/
def leadMatches (lead : ViewLead) (term : Str) : Bool :=
  fieldMatches lead.Name term || fieldMatches lead.Company term ||
  fieldMatches lead.Status term || fieldMatches lead.OwnerName term ||
  fieldMatches lead.LeadSource term

/-- Model of `applyFilter` as a function of the stored (lowercased) search term
and the full data: empty term copies `this.data`, otherwise
`this.data.filter (...)`. -/
def applyFilter (term : Str) (data : List ViewLead) : List ViewLead :=
  if term.isEmpty then data
  else data.filter (fun lead => leadMatches lead term)

/-! ## Component state and observable actions

`LMState` collects the tracked fields of the `LeadManager` class
(leadManager.js 52-63).  The wire handle `wiredLeadsResult` is only an
opaque token passed back to `refreshApex`, so it is not part of the
state; a refresh is instead modelled by supplying the outcome of the
re-fetch.  Every externally observable effect of a handler (toast
event, remote call, write to `isLoading` or to the selection) is
recorded, in order, in a list of `Act`s. -/

structure ToastMsg where
  title : Str
  message : Str
  variant : Str
deriving DecidableEq

def succToast (msg : Str) : ToastMsg :=
  { title := "Success".toList, message := msg, variant := "success".toList }

def warnToast (msg : Str) : ToastMsg :=
  { title := "Warning".toList, message := msg, variant := "warning".toList }

def errToast (msg : Str) : ToastMsg :=
  { title := "Error".toList, message := msg, variant := "error".toList }

inductive Act where
  | loadingSet (b : Bool)
  | selectionSet (rows : List ViewLead)
  | toast (t : ToastMsg)
  | callMutateStatus (leadIds : List Str) (status : Str)
  | callMutateOwner (leadIds : List Str) (newOwnerId : Str)
  | callRefresh
deriving DecidableEq

/-- Is the action one of the three remote requests (`updateLeadStatus`,
`updateLeadOwner`, `refreshApex`)? -/
def Act.isRemoteCall : Act → Bool
  | Act.callMutateStatus _ _ => true
  | Act.callMutateOwner _ _ => true
  | Act.callRefresh => true
  | _ => false

structure LMState where
  data : List ViewLead
  filteredData : List ViewLead
  selectedRows : List ViewLead
  statusOptions : List (Str × Str)
  userOptions : List (Str × Str)
  selectedStatus : Option Str
  selectedOwner : Option Str
  searchTerm : Str
  error : Option Str
  isLoading : Bool
deriving DecidableEq

/-- Field initialisers of the class (leadManager.js 52-63). -/
def initState : LMState :=
  { data := [], filteredData := [], selectedRows := [],
    statusOptions := [], userOptions := [],
    selectedStatus := none, selectedOwner := none,
    searchTerm := [], error := none, isLoading := true }

/-- A wire emission or remote outcome: data, or an error whose
`body.message` is the given string. -/
abbrev FetchResult := Except Str (List LeadRecord)

/-! ## Handlers -/

/-- Handler `wiredLeads` (leadManager.js 78-93).  On data it runs
`processLeadData`, which rebuilds `this.data`, copies it into
`this.filteredData` and immediately re-applies the current filter; a
record without an owner reference makes `processLeadData` throw, which
escapes the handler (result `none`, `isLoading` stuck `true`).  On
error it empties both collections and toasts. -/
def wiredLeads (result : FetchResult) (s : LMState) : Option (LMState × List Act) :=
  match result with
  | Except.ok leads =>
      match processLeads leads with
      | none => none
      | some vl =>
          some ({ s with isLoading := false, data := vl,
                         filteredData := applyFilter s.searchTerm vl,
                         error := none },
                [Act.loadingSet true, Act.loadingSet false])
  | Except.error msg =>
      some ({ s with isLoading := false, error := some msg,
                     data := [], filteredData := [] },
            [Act.loadingSet true,
             Act.toast (errToast ("Error loading leads: ".toList ++ msg)),
             Act.loadingSet false])

/-- Handler `wiredStatusOptions` (leadManager.js 117-127). -/
def wiredStatusOptions (result : Except Str (List (Str × Str))) (s : LMState) :
    LMState × List Act :=
  match result with
  | Except.ok d => ({ s with statusOptions := d, error := none }, [])
  | Except.error msg =>
      ({ s with error := some msg, statusOptions := [] },
       [Act.toast (errToast ("Error loading status options: ".toList ++ msg))])

/-- Handler `wiredUserOptions` (leadManager.js 129-139). -/
def wiredUserOptions (result : Except Str (List (Str × Str))) (s : LMState) :
    LMState × List Act :=
  match result with
  | Except.ok d => ({ s with userOptions := d, error := none }, [])
  | Except.error msg =>
      ({ s with error := some msg, userOptions := [] },
       [Act.toast (errToast ("Error loading user options: ".toList ++ msg))])

/-- Handler `handleRowSelection` (leadManager.js 141-143): replaces the
selection with whatever rows the datatable reports. -/
def handleRowSelection (rows : List ViewLead) (s : LMState) : LMState :=
  { s with selectedRows := rows }

/-- Handler `handleStatusChange` (leadManager.js 145-147). -/
def handleStatusChange (v : Str) (s : LMState) : LMState :=
  { s with selectedStatus := some v }

/-- Handler `handleOwnerChange` (leadManager.js 149-151). -/
def handleOwnerChange (v : Str) (s : LMState) : LMState :=
  { s with selectedOwner := some v }

/-- Handler `handleSearch` (leadManager.js 153-156): lowercases the raw input,
stores it, and re-applies the filter.  The selection is untouched. -/
def handleSearch (raw : Str) (s : LMState) : LMState :=
  { s with searchTerm := toLowerStr raw,
           filteredData := applyFilter (toLowerStr raw) s.data }

/-- Handler `handleRefresh` (leadManager.js 179-187): sets `isLoading`, clears
the selection, then `refreshApex` re-emits to `wiredLeads` with the
outcome `result`; the `finally` always toasts and clears `isLoading`. -/
def handleRefresh (result : FetchResult) (s : LMState) : Option (LMState × List Act) :=
  match wiredLeads result { s with isLoading := true, selectedRows := [] } with
  | none => none
  | some (s2, acts2) =>
      some ({ s2 with isLoading := false },
            [Act.loadingSet true, Act.selectionSet [], Act.callRefresh] ++
            acts2 ++
            [Act.toast (succToast ("Lead data refreshed".toList)),
             Act.loadingSet false])

/-- JavaScript truthiness test used on `this.selectedStatus` /
`this.selectedOwner`: `undefined` and the empty string are falsy. -/
def strFalsy : Option Str → Bool
  | none => true
  | some s => s.isEmpty

/-- Handler `updateStatus` (leadManager.js 189-215).  `mu` is the outcome of
`updateLeadStatus`; on mutator success `refreshApex` re-runs
`wiredLeads` with outcome `rr` (and, when that re-fetch fails, the
rejected promise also lands in the `catch` branch); the `finally`
clears `isLoading` and the selection. -/
def updateStatus (mu : Except Str Unit) (rr : FetchResult) (s : LMState) :
    Option (LMState × List Act) :=
  if s.selectedRows.isEmpty then
    some (s, [Act.toast (warnToast ("Please select at least one lead".toList))])
  else if strFalsy s.selectedStatus then
    some (s, [Act.toast (warnToast ("Please select a status".toList))])
  else
    let leadIds := s.selectedRows.map ViewLead.Id
    let st := s.selectedStatus.getD []
    match mu with
    | Except.ok _ =>
        match wiredLeads rr { s with isLoading := true } with
        | none => none
        | some (s2, acts2) =>
            let catchActs : List Act :=
              match rr with
              | Except.ok _ => []
              | Except.error msg =>
                  [Act.toast (errToast ("Error updating leads: ".toList ++ msg))]
            some ({ s2 with isLoading := false, selectedRows := [] },
                  [Act.loadingSet true,
                   Act.callMutateStatus leadIds st,
                   Act.toast (succToast ((toString leadIds.length).toList ++
                     " leads updated successfully".toList)),
                   Act.callRefresh] ++ acts2 ++ catchActs ++
                  [Act.loadingSet false, Act.selectionSet []])
    | Except.error msg =>
        some ({ s with isLoading := false, selectedRows := [] },
              [Act.loadingSet true,
               Act.callMutateStatus leadIds st,
               Act.toast (errToast ("Error updating leads: ".toList ++ msg)),
               Act.loadingSet false, Act.selectionSet []])

/-- Handler `updateOwner` (leadManager.js 217-243), symmetric to
`updateStatus` with the owner combobox value. -/
def updateOwner (mu : Except Str Unit) (rr : FetchResult) (s : LMState) :
    Option (LMState × List Act) :=
  if s.selectedRows.isEmpty then
    some (s, [Act.toast (warnToast ("Please select at least one lead".toList))])
  else if strFalsy s.selectedOwner then
    some (s, [Act.toast (warnToast ("Please select an owner".toList))])
  else
    let leadIds := s.selectedRows.map ViewLead.Id
    let ow := s.selectedOwner.getD []
    match mu with
    | Except.ok _ =>
        match wiredLeads rr { s with isLoading := true } with
        | none => none
        | some (s2, acts2) =>
            let catchActs : List Act :=
              match rr with
              | Except.ok _ => []
              | Except.error msg =>
                  [Act.toast (errToast ("Error updating lead owners: ".toList ++ msg))]
            some ({ s2 with isLoading := false, selectedRows := [] },
                  [Act.loadingSet true,
                   Act.callMutateOwner leadIds ow,
                   Act.toast (succToast ((toString leadIds.length).toList ++
                     " lead owners updated successfully".toList)),
                   Act.callRefresh] ++ acts2 ++ catchActs ++
                  [Act.loadingSet false, Act.selectionSet []])
    | Except.error msg =>
        some ({ s with isLoading := false, selectedRows := [] },
              [Act.loadingSet true,
               Act.callMutateOwner leadIds ow,
               Act.toast (errToast ("Error updating lead owners: ".toList ++ msg)),
               Act.loadingSet false, Act.selectionSet []])

/-! ## Specification-side filter

Transcribed from the specification's words, to be compared with the
implementation: "if `term` is empty, `visibleLeads = allLeads`
(identity copy, order preserved); otherwise `visibleLeads` = the
subsequence of `allLeads` where at least one of {Name, Company,
Status, ownerName, LeadSource} case-insensitively contains `term`.
A record field absent/empty never matches." -/

/-- Case-insensitive substring containment: the lowercasing of `t`
occurs inside the lowercasing of `s`. -/
def ciContains (s t : Str) : Bool :=
  decide (toLowerStr t <:+: toLowerStr s)

/-- A single field matches the (raw, un-lowercased) term unless it is
absent or empty. -/
def specFieldMatches (f : Option Str) (raw : Str) : Bool :=
  match f with
  | none => false
  | some s => !s.isEmpty && ciContains s raw

/-- At least one of the five searchable fields matches. -/
def specLeadMatches (lead : ViewLead) (raw : Str) : Bool :=
  specFieldMatches lead.Name raw || specFieldMatches lead.Company raw ||
  specFieldMatches lead.Status raw || specFieldMatches lead.OwnerName raw ||
  specFieldMatches lead.LeadSource raw

/-- The visible collection the specification prescribes for a raw
filter term. -/
def specVisible (raw : Str) (data : List ViewLead) : List ViewLead :=
  if raw.isEmpty then data
  else data.filter (fun lead => specLeadMatches lead raw)

/-! ## Event system

One step per externally triggered handler.  The datatable only ever
reports rows it currently displays, so `rowSel` carries the hypothesis
that the reported rows are among `filteredData`; nothing else
constrains an event. -/

inductive Step : LMState → LMState → Prop
  | load (result : FetchResult) (s s' : LMState) (acts : List Act)
      (h : wiredLeads result s = some (s', acts)) : Step s s'
  | statusOpts (result : Except Str (List (Str × Str))) (s : LMState) :
      Step s (wiredStatusOptions result s).1
  | userOpts (result : Except Str (List (Str × Str))) (s : LMState) :
      Step s (wiredUserOptions result s).1
  | rowSel (rows : List ViewLead) (s : LMState)
      (hsub : ∀ v ∈ rows, v ∈ s.filteredData) :
      Step s (handleRowSelection rows s)
  | statusChange (v : Str) (s : LMState) : Step s (handleStatusChange v s)
  | ownerChange (v : Str) (s : LMState) : Step s (handleOwnerChange v s)
  | search (raw : Str) (s : LMState) : Step s (handleSearch raw s)
  | refreshStep (result : FetchResult) (s s' : LMState) (acts : List Act)
      (h : handleRefresh result s = some (s', acts)) : Step s s'
  | updStatus (mu : Except Str Unit) (rr : FetchResult) (s s' : LMState) (acts : List Act)
      (h : updateStatus mu rr s = some (s', acts)) : Step s s'
  | updOwner (mu : Except Str Unit) (rr : FetchResult) (s s' : LMState) (acts : List Act)
      (h : updateOwner mu rr s = some (s', acts)) : Step s s'

/-- States reachable from the freshly constructed component. -/
def Reachable (s : LMState) : Prop :=
  Relation.ReflTransGen Step initState s

/-! ## Concrete records used as witnesses and counterexamples -/

def exOwner : Owner := { Name := some ("Bob".toList) }

def exLead : LeadRecord :=
  { Id := "a1".toList, Name := some ("Alice".toList),
    Company := some ("Acme".toList),
    Status := some ("Working - Contacted".toList),
    LeadSource := some ("Web".toList), Owner := some exOwner }

/-- Result of `processLead exLead`, spelled out. -/
def exView : ViewLead :=
  { Id := "a1".toList, Name := some ("Alice".toList),
    Company := some ("Acme".toList),
    Status := some ("Working - Contacted".toList),
    LeadSource := some ("Web".toList), Owner := some exOwner,
    OwnerName := some ("Bob".toList),
    statusClass := "slds-text-color_success".toList }

/-- State after the initial wire emission delivers `[exLead]`. -/
def exLoaded : LMState :=
  { initState with data := [exView], filteredData := [exView], isLoading := false }

/-- A raw record with no nested `Owner` object at all. -/
def ownerlessLead : LeadRecord :=
  { Id := "l1".toList, Name := some ("No Owner".toList), Company := none,
    Status := none, LeadSource := none, Owner := none }

/-- A raw record whose `Owner` object has no `Name`. -/
def namelessOwnerLead : LeadRecord :=
  { Id := "l2".toList, Name := none, Company := none,
    Status := none, LeadSource := none, Owner := some { Name := none } }

/-- A state holding a one-row selection and a chosen status and owner,
as left by the user just before clicking a bulk-update button. -/
def exArmed : LMState :=
  { exLoaded with selectedRows := [exView],
                  selectedStatus := some ("Closed - Not Converted".toList),
                  selectedOwner := some ("u9".toList) }

/-- The state `updateStatus` leaves behind from `exArmed` when the
mutator succeeds and the re-fetch returns the empty collection. -/
def exAfterStatus : LMState :=
  { exArmed with selectedRows := [], data := [], filteredData := [] }

/-- The action trace of that same successful run. -/
def exStatusActs : List Act :=
  [Act.loadingSet true,
   Act.callMutateStatus ["a1".toList] ("Closed - Not Converted".toList),
   Act.toast (succToast ("1 leads updated successfully".toList)),
   Act.callRefresh, Act.loadingSet true, Act.loadingSet false,
   Act.loadingSet false, Act.selectionSet []]

/-- Loaded state with one row selected but no status/owner chosen. -/
def exSelectedNoStatus : LMState :=
  { exLoaded with selectedRows := [exView] }

/-- State left by a failing bulk-status update from `exArmed`. -/
def exFailState : LMState :=
  { exArmed with selectedRows := [] }

/-- Action trace of that failing bulk-status update (mutator message
`"boom"`). -/
def exFailActs : List Act :=
  [Act.loadingSet true,
   Act.callMutateStatus ["a1".toList] ("Closed - Not Converted".toList),
   Act.toast (errToast ("Error updating leads: ".toList ++ "boom".toList)),
   Act.loadingSet false, Act.selectionSet []]

/-- State after a fetch error (message `"down"`) hits `exLoaded`. -/
def exErrState : LMState :=
  { exLoaded with data := [], filteredData := [], error := some ("down".toList) }

/-- Action trace of that fetch error. -/
def exErrActs : List Act :=
  [Act.loadingSet true,
   Act.toast (errToast ("Error loading leads: ".toList ++ "down".toList)),
   Act.loadingSet false]

/-- Action trace of the successful re-fetch that repopulates from
`[exLead]`. -/
def exRecActs : List Act := [Act.loadingSet true, Act.loadingSet false]

/-- State after `handleRefresh` succeeds from `exArmed`. -/
def exRefreshed : LMState := { exArmed with selectedRows := [] }

/-- Action trace of that refresh. -/
def exRefreshActs : List Act :=
  [Act.loadingSet true, Act.selectionSet [], Act.callRefresh,
   Act.loadingSet true, Act.loadingSet false,
   Act.toast (succToast ("Lead data refreshed".toList)), Act.loadingSet false]

/-! ## Helper lemmas -/

/-- The leads wire handler never touches the selection, the two
combobox values, the search term or the option lists, and always ends
with the loading flag cleared. -/
theorem wiredLeads_frame (result : FetchResult) (s s' : LMState) (acts : List Act)
    (h : wiredLeads result s = some (s', acts)) :
    s'.selectedRows = s.selectedRows ∧ s'.selectedStatus = s.selectedStatus ∧
    s'.selectedOwner = s.selectedOwner ∧ s'.searchTerm = s.searchTerm ∧
    s'.statusOptions = s.statusOptions ∧ s'.userOptions = s.userOptions ∧
    s'.isLoading = false := by
  cases result with
  | ok leads =>
      cases hp : processLeads leads with
      | none =>
          simp only [wiredLeads, hp] at h
          exact Option.noConfusion h
      | some vl =>
          simp only [wiredLeads, hp, Option.some.injEq, Prod.mk.injEq] at h
          obtain ⟨rfl, -⟩ := h
          exact ⟨rfl, rfl, rfl, rfl, rfl, rfl, rfl⟩
  | error msg =>
      simp only [wiredLeads, Option.some.injEq, Prod.mk.injEq] at h
      obtain ⟨rfl, -⟩ := h
      exact ⟨rfl, rfl, rfl, rfl, rfl, rfl, rfl⟩

/-! ## The claims -/

/-- C1: the claim says a record with a missing nested owner reference
is ingested without throwing, with derived owner name `""`.  The code
reads `lead.Owner.Name` unguarded (leadManager.js 109): with no
`Owner` object the map throws a TypeError (modelled `none`), aborting
`processLeadData`; and with an `Owner` lacking `Name` the derived
`OwnerName` is `undefined` (`none`), not the empty string. -/
theorem C1_missing_owner_throws :
    processLead ownerlessLead = none ∧
    processLeads [ownerlessLead] = none ∧
    (processLead namelessOwnerLead).map ViewLead.OwnerName = some none ∧
    (processLead namelessOwnerLead).map ViewLead.OwnerName ≠ some (some []) := by
  decide

/-- C2: after `handleSearch` with any raw term, the visible collection
equals the specification's prescription `specVisible`: all of the data
in original order for the empty term, otherwise the order-preserving
subsequence of records with at least one of the five searchable
fields (absent/empty fields never matching) case-insensitively
containing the term. -/
theorem C2_filter_refines_spec :
    ∀ (raw : Str) (s : LMState),
      (handleSearch raw s).filteredData = specVisible raw s.data ∧
      List.Sublist (specVisible raw s.data) s.data := by
  intro raw s
  constructor
  · cases raw with
    | nil => rfl
    | cons c cs => rfl
  · cases raw with
    | nil => exact List.Sublist.refl _
    | cons c cs => exact List.filter_sublist _

/-- C3: the `statusClass` derived during ingestion is an exact,
case-sensitive function of `Status`: the three recognised values map
to the success, error and weak text-colour classes, and every other
value (including `"Unknown"` or a missing status) maps to no class. -/
theorem C3_statusClass_exact :
    (∀ lead v, processLead lead = some v → v.statusClass = statusClassOf lead.Status) ∧
    statusClassOf (some ("Working - Contacted".toList)) = "slds-text-color_success".toList ∧
    statusClassOf (some ("Closed - Not Converted".toList)) = "slds-text-color_error".toList ∧
    statusClassOf (some ("Open - Not Contacted".toList)) = "slds-text-color_weak".toList ∧
    (∀ st : Option Str,
      st ≠ some ("Working - Contacted".toList) →
      st ≠ some ("Closed - Not Converted".toList) →
      st ≠ some ("Open - Not Contacted".toList) → statusClassOf st = []) := by
  refine ⟨?_, by decide, by decide, by decide, ?_⟩
  · intro lead v h
    unfold processLead at h
    cases ho : lead.Owner with
    | none => rw [ho] at h; cases h
    | some o =>
        rw [ho] at h
        injection h with h
        subst h
        rfl
  · intro st h1 h2 h3
    unfold statusClassOf
    rw [if_neg h1, if_neg h2, if_neg h3]

/-- C3 witness: the first and last components applied at `exLead`
(status `"Working - Contacted"`) and at status `"Unknown"`. -/
theorem C3_statusClass_exact_witness :
    exView.statusClass = statusClassOf exLead.Status ∧
    statusClassOf (some ("Unknown".toList)) = [] :=
  ⟨C3_statusClass_exact.1 exLead exView (by decide),
   C3_statusClass_exact.2.2.2.2 (some ("Unknown".toList))
     (by decide) (by decide) (by decide)⟩

/-- C4 counterexample: the claimed invariant "selection is a subset of
the identifiers of the currently visible leads in every reachable
state" is false.  Load one lead, select it (the datatable reports only
visible rows), then type a filter term matching nothing:
`handleSearch` re-filters but never prunes `selectedRows`, leaving the
selected identifier outside the now-empty visible collection. -/
theorem C4_subset_counterexample :
    ¬ (∀ s, Reachable s → ∀ v ∈ s.selectedRows,
          v.Id ∈ s.filteredData.map ViewLead.Id) := by
  intro hclaim
  have r1 : Reachable exLoaded :=
    Relation.ReflTransGen.refl.tail
      (Step.load (Except.ok [exLead]) initState exLoaded
        [Act.loadingSet true, Act.loadingSet false] (by decide))
  have r2 : Reachable (handleRowSelection [exView] exLoaded) :=
    r1.tail (Step.rowSel [exView] exLoaded (by decide))
  have r3 : Reachable
      (handleSearch ("zzz".toList) (handleRowSelection [exView] exLoaded)) :=
    r2.tail (Step.search ("zzz".toList) (handleRowSelection [exView] exLoaded))
  have hmem := hclaim _ r3 exView (by decide)
  exact absurd hmem (by decide)

/-- C4 amended: the clearing half of the claim holds — every bulk
mutation that passes validation (successful or failed) and every
manual refresh ends with an empty selection — but the subset relation
is not maintained across a filter-term change: `handleSearch` leaves
`selectedRows` untouched. -/
theorem C4_selection_clearing :
    (∀ result s s' acts, handleRefresh result s = some (s', acts) →
       s'.selectedRows = []) ∧
    (∀ mu rr s s' acts, s.selectedRows ≠ [] → strFalsy s.selectedStatus = false →
       updateStatus mu rr s = some (s', acts) → s'.selectedRows = []) ∧
    (∀ mu rr s s' acts, s.selectedRows ≠ [] → strFalsy s.selectedOwner = false →
       updateOwner mu rr s = some (s', acts) → s'.selectedRows = []) ∧
    (∀ raw s, (handleSearch raw s).selectedRows = s.selectedRows) := by
  refine ⟨?_, ?_, ?_, fun raw s => rfl⟩
  · intro result s s' acts h
    cases hw : wiredLeads result { s with isLoading := true, selectedRows := [] } with
    | none => simp only [handleRefresh, hw] at h; exact Option.noConfusion h
    | some p =>
        obtain ⟨s2, acts2⟩ := p
        simp only [handleRefresh, hw, Option.some.injEq, Prod.mk.injEq] at h
        obtain ⟨rfl, -⟩ := h
        exact (wiredLeads_frame result _ s2 acts2 hw).1
  · intro mu rr s s' acts hrows hst h
    have he : s.selectedRows.isEmpty = false := by
      cases hr : s.selectedRows with
      | nil => exact absurd hr hrows
      | cons a l => rfl
    cases mu with
    | ok u =>
        cases hw : wiredLeads rr { s with isLoading := true } with
        | none => simp [updateStatus, he, hst, hw] at h
        | some p =>
            obtain ⟨s2, acts2⟩ := p
            simp only [updateStatus, he, hst, Bool.false_eq_true, if_false, hw,
              Option.some.injEq, Prod.mk.injEq] at h
            obtain ⟨rfl, -⟩ := h
            rfl
    | error msg =>
        simp only [updateStatus, he, hst, Bool.false_eq_true, if_false,
          Option.some.injEq, Prod.mk.injEq] at h
        obtain ⟨rfl, -⟩ := h
        rfl
  · intro mu rr s s' acts hrows how h
    have he : s.selectedRows.isEmpty = false := by
      cases hr : s.selectedRows with
      | nil => exact absurd hr hrows
      | cons a l => rfl
    cases mu with
    | ok u =>
        cases hw : wiredLeads rr { s with isLoading := true } with
        | none => simp [updateOwner, he, how, hw] at h
        | some p =>
            obtain ⟨s2, acts2⟩ := p
            simp only [updateOwner, he, how, Bool.false_eq_true, if_false, hw,
              Option.some.injEq, Prod.mk.injEq] at h
            obtain ⟨rfl, -⟩ := h
            rfl
    | error msg =>
        simp only [updateOwner, he, how, Bool.false_eq_true, if_false,
          Option.some.injEq, Prod.mk.injEq] at h
        obtain ⟨rfl, -⟩ := h
        rfl

/-- C4 witness: the clearing statements at a concrete armed state and
the filter-change statement at a concrete term. -/
theorem C4_selection_clearing_witness :
    exAfterStatus.selectedRows = [] ∧
    (handleSearch ("zzz".toList) exArmed).selectedRows = exArmed.selectedRows :=
  ⟨C4_selection_clearing.2.1 (Except.ok ()) (Except.ok []) exArmed exAfterStatus
      exStatusActs (by decide) (by decide) (by decide),
   C4_selection_clearing.2.2.2 ("zzz".toList) exArmed⟩

/-- C5: with an empty selection both bulk updates warn "Please select
at least one lead" and change nothing; with a selection but no chosen
status (resp. owner) they warn "Please select a status" (resp. "an
owner"); in each case the emitted trace is that single warning toast,
so no remote call is issued. -/
theorem C5_validation_guards :
    ∀ (muS muO : Except Str Unit) (rr : FetchResult) (s : LMState),
      (s.selectedRows = [] →
        updateStatus muS rr s =
          some (s, [Act.toast (warnToast ("Please select at least one lead".toList))]) ∧
        updateOwner muO rr s =
          some (s, [Act.toast (warnToast ("Please select at least one lead".toList))])) ∧
      (s.selectedRows ≠ [] → strFalsy s.selectedStatus = true →
        updateStatus muS rr s =
          some (s, [Act.toast (warnToast ("Please select a status".toList))])) ∧
      (s.selectedRows ≠ [] → strFalsy s.selectedOwner = true →
        updateOwner muO rr s =
          some (s, [Act.toast (warnToast ("Please select an owner".toList))])) ∧
      (∀ t : ToastMsg, Act.isRemoteCall (Act.toast t) = false) := by
  intro muS muO rr s
  refine ⟨?_, ?_, ?_, fun t => rfl⟩
  · intro hrows
    constructor <;> simp [updateStatus, updateOwner, hrows]
  · intro hrows hst
    have he : s.selectedRows.isEmpty = false := by
      cases hr : s.selectedRows with
      | nil => exact absurd hr hrows
      | cons a l => rfl
    simp [updateStatus, he, hst]
  · intro hrows how
    have he : s.selectedRows.isEmpty = false := by
      cases hr : s.selectedRows with
      | nil => exact absurd hr hrows
      | cons a l => rfl
    simp [updateOwner, he, how]

/-- C5 witness: the guards exercised at the fresh state (empty
selection) and at a selected state with no status and no owner
chosen. -/
theorem C5_validation_guards_witness :
    updateStatus (Except.ok ()) (Except.ok []) initState =
      some (initState,
        [Act.toast (warnToast ("Please select at least one lead".toList))]) ∧
    updateStatus (Except.ok ()) (Except.ok []) exSelectedNoStatus =
      some (exSelectedNoStatus,
        [Act.toast (warnToast ("Please select a status".toList))]) ∧
    updateOwner (Except.ok ()) (Except.ok []) exSelectedNoStatus =
      some (exSelectedNoStatus,
        [Act.toast (warnToast ("Please select an owner".toList))]) :=
  ⟨((C5_validation_guards (Except.ok ()) (Except.ok ()) (Except.ok []) initState).1 rfl).1,
   (C5_validation_guards (Except.ok ()) (Except.ok ()) (Except.ok [])
      exSelectedNoStatus).2.1 (by decide) rfl,
   (C5_validation_guards (Except.ok ()) (Except.ok ()) (Except.ok [])
      exSelectedNoStatus).2.2.1 (by decide) rfl⟩

/-- C6: when validation passes and the mutator reports success,
`updateStatus` issues exactly one `refreshApex` call, every clearing
of `isLoading` happens after that call was issued, and the run ends
with the selection empty and `isLoading` false — whatever the
re-fetch itself returns. -/
theorem C6_success_refreshes_once :
    ∀ (rr : FetchResult) (s s' : LMState) (acts : List Act),
      s.selectedRows ≠ [] → strFalsy s.selectedStatus = false →
      updateStatus (Except.ok ()) rr s = some (s', acts) →
      ∃ pre post, acts = pre ++ Act.callRefresh :: post ∧
        Act.callRefresh ∉ pre ∧ Act.callRefresh ∉ post ∧
        Act.loadingSet false ∉ pre ∧ Act.loadingSet false ∈ post ∧
        s'.selectedRows = [] ∧ s'.isLoading = false := by
  intro rr s s' acts hrows hst h
  have he : s.selectedRows.isEmpty = false := by
    cases hr : s.selectedRows with
    | nil => exact absurd hr hrows
    | cons a l => rfl
  cases rr with
  | ok leads =>
      cases hp : processLeads leads with
      | none => simp [updateStatus, he, hst, wiredLeads, hp] at h
      | some vl =>
          simp only [updateStatus, he, hst, Bool.false_eq_true, if_false,
            wiredLeads, hp, Option.some.injEq, Prod.mk.injEq] at h
          obtain ⟨rfl, rfl⟩ := h
          refine ⟨[Act.loadingSet true,
                   Act.callMutateStatus (s.selectedRows.map ViewLead.Id)
                     (s.selectedStatus.getD []),
                   Act.toast (succToast
                     ((toString (s.selectedRows.map ViewLead.Id).length).toList ++
                       " leads updated successfully".toList))],
                  [Act.loadingSet true, Act.loadingSet false,
                   Act.loadingSet false, Act.selectionSet []],
                  by simp, by simp, by simp, by simp, by simp, rfl, rfl⟩
  | error msg =>
      simp only [updateStatus, he, hst, Bool.false_eq_true, if_false,
        wiredLeads, Option.some.injEq, Prod.mk.injEq] at h
      obtain ⟨rfl, rfl⟩ := h
      refine ⟨[Act.loadingSet true,
               Act.callMutateStatus (s.selectedRows.map ViewLead.Id)
                 (s.selectedStatus.getD []),
               Act.toast (succToast
                 ((toString (s.selectedRows.map ViewLead.Id).length).toList ++
                   " leads updated successfully".toList))],
              [Act.loadingSet true,
               Act.toast (errToast ("Error loading leads: ".toList ++ msg)),
               Act.loadingSet false,
               Act.toast (errToast ("Error updating leads: ".toList ++ msg)),
               Act.loadingSet false, Act.selectionSet []],
              by simp, by simp, by simp, by simp, by simp, rfl, rfl⟩

/-- C6 witness: the successful bulk-status run from `exArmed` with an
empty re-fetch. -/
theorem C6_success_refreshes_once_witness :
    ∃ pre post, exStatusActs = pre ++ Act.callRefresh :: post ∧
      Act.callRefresh ∉ pre ∧ Act.callRefresh ∉ post ∧
      Act.loadingSet false ∉ pre ∧ Act.loadingSet false ∈ post ∧
      exAfterStatus.selectedRows = [] ∧ exAfterStatus.isLoading = false :=
  C6_success_refreshes_once (Except.ok []) exArmed exAfterStatus exStatusActs
    (by decide) (by decide) (by decide)

/-- C7: when the mutator reports failure, both bulk updates surface
the error message in a toast, clear the selection, end with
`isLoading` false, and never issue a refresh call. -/
theorem C7_remote_failure :
    (∀ (msg : Str) (rr : FetchResult) (s s' : LMState) (acts : List Act),
       s.selectedRows ≠ [] → strFalsy s.selectedStatus = false →
       updateStatus (Except.error msg) rr s = some (s', acts) →
       Act.toast (errToast ("Error updating leads: ".toList ++ msg)) ∈ acts ∧
       s'.selectedRows = [] ∧ s'.isLoading = false ∧ Act.callRefresh ∉ acts) ∧
    (∀ (msg : Str) (rr : FetchResult) (s s' : LMState) (acts : List Act),
       s.selectedRows ≠ [] → strFalsy s.selectedOwner = false →
       updateOwner (Except.error msg) rr s = some (s', acts) →
       Act.toast (errToast ("Error updating lead owners: ".toList ++ msg)) ∈ acts ∧
       s'.selectedRows = [] ∧ s'.isLoading = false ∧ Act.callRefresh ∉ acts) := by
  constructor
  · intro msg rr s s' acts hrows hst h
    have he : s.selectedRows.isEmpty = false := by
      cases hr : s.selectedRows with
      | nil => exact absurd hr hrows
      | cons a l => rfl
    simp only [updateStatus, he, hst, Bool.false_eq_true, if_false,
      Option.some.injEq, Prod.mk.injEq] at h
    obtain ⟨rfl, rfl⟩ := h
    refine ⟨by simp, rfl, rfl, by simp⟩
  · intro msg rr s s' acts hrows how h
    have he : s.selectedRows.isEmpty = false := by
      cases hr : s.selectedRows with
      | nil => exact absurd hr hrows
      | cons a l => rfl
    simp only [updateOwner, he, how, Bool.false_eq_true, if_false,
      Option.some.injEq, Prod.mk.injEq] at h
    obtain ⟨rfl, rfl⟩ := h
    refine ⟨by simp, rfl, rfl, by simp⟩

/-- C7 witness: the failing bulk-status run from `exArmed` with
mutator message `"boom"`. -/
theorem C7_remote_failure_witness :
    Act.toast (errToast ("Error updating leads: ".toList ++ "boom".toList)) ∈ exFailActs ∧
    exFailState.selectedRows = [] ∧ exFailState.isLoading = false ∧
    Act.callRefresh ∉ exFailActs :=
  C7_remote_failure.1 ("boom".toList) (Except.ok []) exArmed exFailState exFailActs
    (by decide) (by decide) (by decide)

/-- C8: a fetch error empties both `data` and `filteredData`, surfaces
the error message through a toast and ends with `isLoading` false; and
any later successful emission (in particular one following that error
state) rebuilds both collections from the new records, clearing the
stored error. -/
theorem C8_fetch_error_empties :
    (∀ (msg : Str) (s s₁ : LMState) (acts₁ : List Act),
       wiredLeads (Except.error msg) s = some (s₁, acts₁) →
       s₁.data = [] ∧ s₁.filteredData = [] ∧ s₁.isLoading = false ∧
       s₁.error = some msg ∧
       Act.toast (errToast ("Error loading leads: ".toList ++ msg)) ∈ acts₁) ∧
    (∀ (leads : List LeadRecord) (vl : List ViewLead) (s s₂ : LMState)
       (acts₂ : List Act),
       processLeads leads = some vl →
       wiredLeads (Except.ok leads) s = some (s₂, acts₂) →
       s₂.data = vl ∧ s₂.filteredData = applyFilter s.searchTerm vl ∧
       s₂.error = none ∧ s₂.isLoading = false) := by
  constructor
  · intro msg s s₁ acts₁ h
    simp only [wiredLeads, Option.some.injEq, Prod.mk.injEq] at h
    obtain ⟨rfl, rfl⟩ := h
    refine ⟨rfl, rfl, rfl, rfl, by simp⟩
  · intro leads vl s s₂ acts₂ hp h
    simp only [wiredLeads, hp, Option.some.injEq, Prod.mk.injEq] at h
    obtain ⟨rfl, rfl⟩ := h
    exact ⟨rfl, rfl, rfl, rfl⟩

/-- C8 witness: the error emission `"down"` against the loaded state,
followed by a successful re-fetch of `[exLead]` from the error state,
which restores `exLoaded`'s collections. -/
theorem C8_fetch_error_empties_witness :
    (exErrState.data = [] ∧ exErrState.filteredData = [] ∧
     exErrState.isLoading = false ∧ exErrState.error = some ("down".toList) ∧
     Act.toast (errToast ("Error loading leads: ".toList ++ "down".toList)) ∈ exErrActs) ∧
    (exLoaded.data = [exView] ∧
     exLoaded.filteredData = applyFilter exErrState.searchTerm [exView] ∧
     exLoaded.error = none ∧ exLoaded.isLoading = false) :=
  ⟨C8_fetch_error_empties.1 ("down".toList) exLoaded exErrState exErrActs (by decide),
   C8_fetch_error_empties.2 [exLead] [exView] exErrState exLoaded exRecActs
     (by decide) (by decide)⟩

/-- C9: every `handleRefresh` run clears the selection before issuing
the `refreshApex` call, and — whether the re-fetch succeeded or
failed — ends notified ("Lead data refreshed") with `isLoading`
false. -/
theorem C9_refresh_behaviour :
    ∀ (result : FetchResult) (s s' : LMState) (acts : List Act),
      handleRefresh result s = some (s', acts) →
      s'.selectedRows = [] ∧ s'.isLoading = false ∧
      ∃ pre post, acts = pre ++ Act.callRefresh :: post ∧
        Act.selectionSet [] ∈ pre ∧
        Act.toast (succToast ("Lead data refreshed".toList)) ∈ post ∧
        Act.loadingSet false ∈ post := by
  intro result s s' acts h
  cases result with
  | ok leads =>
      cases hp : processLeads leads with
      | none =>
          simp only [handleRefresh, wiredLeads, hp] at h
          exact Option.noConfusion h
      | some vl =>
          simp only [handleRefresh, wiredLeads, hp, Option.some.injEq,
            Prod.mk.injEq] at h
          obtain ⟨rfl, rfl⟩ := h
          refine ⟨rfl, rfl, [Act.loadingSet true, Act.selectionSet []],
            [Act.loadingSet true, Act.loadingSet false,
             Act.toast (succToast ("Lead data refreshed".toList)),
             Act.loadingSet false], rfl, by simp, by simp, by simp⟩
  | error msg =>
      simp only [handleRefresh, wiredLeads, Option.some.injEq, Prod.mk.injEq] at h
      obtain ⟨rfl, rfl⟩ := h
      refine ⟨rfl, rfl, [Act.loadingSet true, Act.selectionSet []],
        [Act.loadingSet true,
         Act.toast (errToast ("Error loading leads: ".toList ++ msg)),
         Act.loadingSet false,
         Act.toast (succToast ("Lead data refreshed".toList)),
         Act.loadingSet false], rfl, by simp, by simp, by simp⟩

/-- C9 witness: a refresh from the armed state whose re-fetch
re-delivers `[exLead]`. -/
theorem C9_refresh_behaviour_witness :
    exRefreshed.selectedRows = [] ∧ exRefreshed.isLoading = false ∧
    ∃ pre post, exRefreshActs = pre ++ Act.callRefresh :: post ∧
      Act.selectionSet [] ∈ pre ∧
      Act.toast (succToast ("Lead data refreshed".toList)) ∈ post ∧
      Act.loadingSet false ∈ post :=
  C9_refresh_behaviour (Except.ok [exLead]) exArmed exRefreshed exRefreshActs (by decide)

/-- C10: neither bulk update ever writes `selectedStatus`,
`selectedOwner`, `searchTerm` or the option lists (the dropdown values
survive every outcome); and on a mutator failure that passed
validation, the entire state change is exactly the direct writes
`isLoading := false`, `selectedRows := []`. -/
theorem C10_bulk_frame :
    (∀ (mu : Except Str Unit) (rr : FetchResult) (s s' : LMState) (acts : List Act),
       updateStatus mu rr s = some (s', acts) →
       s'.selectedStatus = s.selectedStatus ∧ s'.selectedOwner = s.selectedOwner ∧
       s'.searchTerm = s.searchTerm ∧ s'.statusOptions = s.statusOptions ∧
       s'.userOptions = s.userOptions) ∧
    (∀ (mu : Except Str Unit) (rr : FetchResult) (s s' : LMState) (acts : List Act),
       updateOwner mu rr s = some (s', acts) →
       s'.selectedStatus = s.selectedStatus ∧ s'.selectedOwner = s.selectedOwner ∧
       s'.searchTerm = s.searchTerm ∧ s'.statusOptions = s.statusOptions ∧
       s'.userOptions = s.userOptions) ∧
    (∀ (msg : Str) (rr : FetchResult) (s s' : LMState) (acts : List Act),
       s.selectedRows ≠ [] → strFalsy s.selectedStatus = false →
       updateStatus (Except.error msg) rr s = some (s', acts) →
       s' = { s with isLoading := false, selectedRows := [] }) ∧
    (∀ (msg : Str) (rr : FetchResult) (s s' : LMState) (acts : List Act),
       s.selectedRows ≠ [] → strFalsy s.selectedOwner = false →
       updateOwner (Except.error msg) rr s = some (s', acts) →
       s' = { s with isLoading := false, selectedRows := [] }) := by
  refine ⟨?_, ?_, ?_, ?_⟩
  · intro mu rr s s' acts h
    cases hE : s.selectedRows.isEmpty with
    | true =>
        simp only [updateStatus, hE, if_true] at h
        obtain ⟨rfl, -⟩ := h
        exact ⟨rfl, rfl, rfl, rfl, rfl⟩
    | false =>
        cases hS : strFalsy s.selectedStatus with
        | true =>
            simp only [updateStatus, hE, Bool.false_eq_true, if_false, hS,
              if_true, Option.some.injEq, Prod.mk.injEq] at h
            obtain ⟨rfl, -⟩ := h
            exact ⟨rfl, rfl, rfl, rfl, rfl⟩
        | false =>
            cases mu with
            | ok u =>
                cases hw : wiredLeads rr { s with isLoading := true } with
                | none =>
                    simp only [updateStatus, hE, hS, Bool.false_eq_true,
                      if_false, hw] at h
                    exact Option.noConfusion h
                | some p =>
                    obtain ⟨s2, acts2⟩ := p
                    simp only [updateStatus, hE, hS, Bool.false_eq_true,
                      if_false, hw, Option.some.injEq, Prod.mk.injEq] at h
                    obtain ⟨rfl, -⟩ := h
                    have hf := wiredLeads_frame rr _ s2 acts2 hw
                    exact ⟨hf.2.1, hf.2.2.1, hf.2.2.2.1, hf.2.2.2.2.1,
                      hf.2.2.2.2.2.1⟩
            | error msg =>
                simp only [updateStatus, hE, hS, Bool.false_eq_true, if_false,
                  Option.some.injEq, Prod.mk.injEq] at h
                obtain ⟨rfl, -⟩ := h
                exact ⟨rfl, rfl, rfl, rfl, rfl⟩
  · intro mu rr s s' acts h
    cases hE : s.selectedRows.isEmpty with
    | true =>
        simp only [updateOwner, hE, if_true] at h
        obtain ⟨rfl, -⟩ := h
        exact ⟨rfl, rfl, rfl, rfl, rfl⟩
    | false =>
        cases hS : strFalsy s.selectedOwner with
        | true =>
            simp only [updateOwner, hE, Bool.false_eq_true, if_false, hS,
              if_true, Option.some.injEq, Prod.mk.injEq] at h
            obtain ⟨rfl, -⟩ := h
            exact ⟨rfl, rfl, rfl, rfl, rfl⟩
        | false =>
            cases mu with
            | ok u =>
                cases hw : wiredLeads rr { s with isLoading := true } with
                | none =>
                    simp only [updateOwner, hE, hS, Bool.false_eq_true,
                      if_false, hw] at h
                    exact Option.noConfusion h
                | some p =>
                    obtain ⟨s2, acts2⟩ := p
                    simp only [updateOwner, hE, hS, Bool.false_eq_true,
                      if_false, hw, Option.some.injEq, Prod.mk.injEq] at h
                    obtain ⟨rfl, -⟩ := h
                    have hf := wiredLeads_frame rr _ s2 acts2 hw
                    exact ⟨hf.2.1, hf.2.2.1, hf.2.2.2.1, hf.2.2.2.2.1,
                      hf.2.2.2.2.2.1⟩
            | error msg =>
                simp only [updateOwner, hE, hS, Bool.false_eq_true, if_false,
                  Option.some.injEq, Prod.mk.injEq] at h
                obtain ⟨rfl, -⟩ := h
                exact ⟨rfl, rfl, rfl, rfl, rfl⟩
  · intro msg rr s s' acts hrows hst h
    have he : s.selectedRows.isEmpty = false := by
      cases hr : s.selectedRows with
      | nil => exact absurd hr hrows
      | cons a l => rfl
    simp only [updateStatus, he, hst, Bool.false_eq_true, if_false,
      Option.some.injEq, Prod.mk.injEq] at h
    exact h.1.symm
  · intro msg rr s s' acts hrows how h
    have he : s.selectedRows.isEmpty = false := by
      cases hr : s.selectedRows with
      | nil => exact absurd hr hrows
      | cons a l => rfl
    simp only [updateOwner, he, how, Bool.false_eq_true, if_false,
      Option.some.injEq, Prod.mk.injEq] at h
    exact h.1.symm

/-- C10 witness: the successful run from `exArmed` leaves its dropdown
values and search term intact, and the failing run from `exArmed`
writes exactly `isLoading` and `selectedRows`. -/
theorem C10_bulk_frame_witness :
    (exAfterStatus.selectedStatus = exArmed.selectedStatus ∧
     exAfterStatus.selectedOwner = exArmed.selectedOwner ∧
     exAfterStatus.searchTerm = exArmed.searchTerm ∧
     exAfterStatus.statusOptions = exArmed.statusOptions ∧
     exAfterStatus.userOptions = exArmed.userOptions) ∧
    exFailState = { exArmed with isLoading := false, selectedRows := [] } :=
  ⟨C10_bulk_frame.1 (Except.ok ()) (Except.ok []) exArmed exAfterStatus
     exStatusActs (by decide),
   C10_bulk_frame.2.2.1 ("boom".toList) (Except.ok []) exArmed exFailState
     exFailActs (by decide) (by decide) (by decide)⟩
